import Mathlib

/-!
Verification of the content collection subsystem of a static blog site.

The repository declares a single content collection in `src/content.config.ts`:

  const blog = defineCollection({
    loader: glob({ base: "./content/blog/", pattern: "**/*.\x7bmd,mdx\x7d" }),
    schema: z.object({ title: z.string() }),
  });
  export const collections = { blog };

The loader/validator/index machinery itself is framework code that is not part
of this repository's sources; it is modelled here from the specification
(sections 2-4, 6-8): a Loader that splits documents into front-matter and body,
a Validator that checks parsed front-matter against a closed SchemaDescriptor,
and a CollectionIndex queryable by collection name and entry id.

Strings are manipulated at the level of their character lists so that every
definition is structurally recursive and evaluates inside the kernel.
-/

namespace Blog

/-- Modelled from the spec: the runtime value shapes carried by parsed
front-matter. The spec's primitives are string, number, boolean and date;
its optional nested object/array compositions are not declared by any schema
of this repository (the only schema is `blog`'s `{ title: string }`) and the
restricted line-based front-matter format yields scalar values only, so the
scalar primitives are modelled. -/
inductive Value where
  | str (s : String)
  | num (n : Int)
  | bool (b : Bool)
  | date (y m d : Nat)
  deriving DecidableEq, Repr

/-- Modelled from the spec: the declared type of a front-matter field. -/
inductive FieldType where
  | string
  | number
  | boolean
  | date
  deriving DecidableEq, Repr

/-- Modelled from the spec: per-field schema information — a declared type and
whether the field is required (an optional primitive is `required := false`). -/
structure FieldSpec where
  type : FieldType
  required : Bool
  deriving DecidableEq, Repr

/-- Modelled from the spec: an ordered mapping from field name to FieldSpec.
Field names within one descriptor are unique (invariant of the declarations). -/
structure SchemaDescriptor where
  fields : List (String × FieldSpec)
  deriving DecidableEq, Repr

/-- Name of the runtime shape of a value, as reported in diagnostics. -/
def valueTypeName : Value → String
  | .str _ => "string"
  | .num _ => "number"
  | .bool _ => "boolean"
  | .date _ _ _ => "date"

/-- Name of a declared field type, as reported in diagnostics. -/
def fieldTypeName : FieldType → String
  | .string => "string"
  | .number => "number"
  | .boolean => "boolean"
  | .date => "date"

/-- Does a runtime value match a declared field type? -/
def typeMatches : FieldType → Value → Bool
  | .string, .str _ => true
  | .number, .num _ => true
  | .boolean, .bool _ => true
  | .date, .date _ _ _ => true
  | _, _ => false

/-- Modelled from the spec: field-level schema violations. -/
inductive Violation where
  | MissingField (name : String)
  | TypeMismatch (name expected actual : String)
  | UnknownField (name : String)
  deriving DecidableEq, Repr

/-- A parsed front-matter record: an ordered list of (field name, value). -/
abbrev FrontMatter := List (String × Value)

/-- Look up a field's value in a parsed front-matter record. -/
def lookupField (fm : FrontMatter) (name : String) : Option Value :=
  (fm.find? (fun kv => kv.1 == name)).map Prod.snd

/-- Look up a field's declaration in a schema descriptor. -/
def lookupSpec (schema : SchemaDescriptor) (name : String) : Option FieldSpec :=
  (schema.fields.find? (fun fs => fs.1 == name)).map Prod.snd

/-- Modelled from the spec: the Validator. Checks a parsed front-matter record
against a SchemaDescriptor and collects ALL field-level violations (not
fail-fast): a `MissingField` for each required field that is absent, a
`TypeMismatch(name, expected, actual)` for each present declared field whose
value shape does not match, and an `UnknownField` for each present field not
declared in the schema (schemas are closed by design). -/
def validate (schema : SchemaDescriptor) (fm : FrontMatter) : List Violation :=
  (schema.fields.filterMap (fun nf =>
    if nf.2.required && (lookupField fm nf.1).isNone then
      some (Violation.MissingField nf.1)
    else
      none))
  ++ (fm.filterMap (fun nv =>
    match lookupSpec schema nv.1 with
    | some fs =>
        if typeMatches fs.type nv.2 then
          none
        else
          some (Violation.TypeMismatch nv.1 (fieldTypeName fs.type) (valueTypeName nv.2))
    | none => none))
  ++ (fm.filterMap (fun nv =>
    if (lookupSpec schema nv.1).isNone then
      some (Violation.UnknownField nv.1)
    else
      none))

/-- Modelled from the spec: on success the Validator returns the validated
`data` map; the parser already delivers values in canonical representation
(date scalars are parsed into date values, see `parseScalar`), so the accepted
record is returned as the canonical `data`. On failure it returns the full
list of violations. -/
def validateData (schema : SchemaDescriptor) (fm : FrontMatter) :
    Except (List Violation) FrontMatter :=
  match validate schema fm with
  | [] => Except.ok fm
  | v :: vs => Except.error (v :: vs)

end Blog

namespace Blog

/-! ### String helpers over character lists -/

/-- Does the string end with the given text? (character-list level). -/
def strEndsWith (s suffix : String) : Bool :=
  s.data.reverse.take suffix.data.length == suffix.data.reverse

/-- Drop the last `n` characters of a string. -/
def strDropRight (s : String) (n : Nat) : String :=
  ⟨s.data.take (s.data.length - n)⟩

/-! ### Identifier derivation (path -> id) -/

/-- Modelled from the spec: path separators are normalized to `/`. -/
def normalizeSeparators (p : String) : String :=
  ⟨p.data.map (fun c => if c = '\\' then '/' else c)⟩

/-- Modelled from the spec: the declared document file extensions (`.md`,
`.mdx`) are stripped from the path when deriving the identifier. -/
def stripExtension (p : String) : String :=
  if strEndsWith p ".mdx" then strDropRight p 4
  else if strEndsWith p ".md" then strDropRight p 3
  else p

/-- Modelled from the spec: a trailing `/index` segment is dropped, so
`a/post/index.md` and `a/post.md` derive the same identifier. -/
def stripIndexSegment (p : String) : String :=
  if strEndsWith p "/index" then strDropRight p 6 else p

/-- Modelled from the spec: deterministic identifier derivation from the
document's relative path — separators normalized, extension stripped,
trailing `/index` segment dropped. -/
def pathToId (p : String) : String :=
  stripIndexSegment (stripExtension (normalizeSeparators p))

/-! ### Front-matter parsing -/

/-- Split a character list at the first colon, if any. -/
def splitAtColon : List Char → Option (List Char × List Char)
  | [] => none
  | c :: rest =>
      if c = ':' then some ([], rest)
      else (splitAtColon rest).map (fun p => (c :: p.1, p.2))

/-- Parse the digits of a decimal numeral. -/
def natOfDigits (l : List Char) : Nat :=
  l.foldl (fun n c => 10 * n + (c.toNat - 48)) 0

/-- Modelled from the spec: scalar values of the restricted key/value
front-matter format, delivered in canonical representation: `true`/`false`
become booleans, decimal numerals become numbers, ISO `yyyy-mm-dd` scalars
become date values (never the raw string form), everything else is a string. -/
def parseScalar (s : String) : Value :=
  if s == "true" then Value.bool true
  else if s == "false" then Value.bool false
  else if !s.data.isEmpty && s.data.all Char.isDigit then Value.num (natOfDigits s.data)
  else
    match s.data with
    | [y1, y2, y3, y4, '-', m1, m2, '-', d1, d2] =>
        if [y1, y2, y3, y4, m1, m2, d1, d2].all Char.isDigit then
          Value.date (natOfDigits [y1, y2, y3, y4]) (natOfDigits [m1, m2]) (natOfDigits [d1, d2])
        else Value.str s
    | _ => Value.str s

/-- Modelled from the spec: parse one `key: value` line of front-matter;
fails when the line carries no colon. Spaces after the colon are not part
of the value. -/
def parseFMLine (l : String) : Option (String × Value) :=
  (splitAtColon l.data).map (fun p =>
    (⟨p.1⟩, parseScalar ⟨p.2.dropWhile (fun c => c = ' ')⟩))

/-- Modelled from the spec: parse a front-matter block (its lines between the
markers) as structured key/value data; blank lines are ignored; fails — the
block is not parseable — when a non-blank line has no colon or when a key
occurs twice. -/
def parseFrontMatter (lines : List String) : Option FrontMatter :=
  match (lines.filter (fun l => !(l == ""))).mapM parseFMLine with
  | none => none
  | some fm => if (fm.map Prod.fst).Nodup then some fm else none

/-- Split a list of lines at the first marker line `---`; fails when the
marker never occurs (unterminated front-matter). -/
def splitAtMarker : List String → Option (List String × List String)
  | [] => none
  | l :: rest =>
      if l == "---" then some ([], rest)
      else (splitAtMarker rest).map (fun p => (l :: p.1, p.2))

/-- Modelled from the spec: split a document (its content as lines) into the
front-matter block delimited by the fixed marker line `---` at the start and
a matching marker line terminating it, and the body (everything after the
terminating marker). Fails — `MalformedDocument` — when the document does not
begin with the marker or the block is unterminated. -/
def splitFrontMatter : List String → Option (List String × List String)
  | [] => none
  | l :: rest => if l == "---" then splitAtMarker rest else none

end Blog

namespace Blog

/-! ### Entries, documents and the build pipeline -/

/-- Modelled from the spec: one validated document within a collection. The
body keeps the document's lines after the front-matter block. -/
structure Entry where
  id : String
  collection : String
  data : FrontMatter
  body : List String
  deriving DecidableEq, Repr

/-- Modelled from the spec: build-time failure taxonomy — unparseable
documents, per-field schema violations (batched), and identifier collisions
reported with both conflicting paths. -/
inductive BuildError where
  | MalformedDocument (path : String)
  | SchemaViolation (path : String) (v : Violation)
  | DuplicateIdentifier (path1 path2 : String)
  deriving DecidableEq, Repr

/-- Modelled from the spec: a collection declaration — name, base path, the
declared document extensions (the glob pattern restricted to the declared
extensions), and the schema. -/
structure CollectionDefinition where
  name : String
  basePath : String
  extensions : List String
  schema : SchemaDescriptor

/-- Modelled from the spec: does a path match the collection's file pattern?
The glob of this repository matches every file with a declared extension. -/
def matchesPattern (c : CollectionDefinition) (path : String) : Bool :=
  c.extensions.any (fun e => strEndsWith path e)

/-- Modelled from the spec: the Document Store — one entry per file, a path
relative to the collection's base and the file's content as lines. -/
abbrev DocumentStore := List (String × List String)

/-- Modelled from the spec: validate a parsed document and construct its
Entry, or report every schema violation found for it. -/
def mkEntry (schema : SchemaDescriptor) (collName path : String)
    (fm : FrontMatter) (body : List String) : Except (List BuildError) Entry :=
  match validateData schema fm with
  | Except.ok data =>
      Except.ok { id := pathToId path, collection := collName, data := data, body := body }
  | Except.error vs => Except.error (vs.map (BuildError.SchemaViolation path))

/-- Modelled from the spec: process one source document — split off the
front-matter block, parse it, validate it, and construct the Entry. -/
def processDocument (schema : SchemaDescriptor) (collName path : String)
    (lines : List String) : Except (List BuildError) Entry :=
  match splitFrontMatter lines with
  | none => Except.error [BuildError.MalformedDocument path]
  | some fspan =>
      match parseFrontMatter fspan.1 with
      | none => Except.error [BuildError.MalformedDocument path]
      | some fm => mkEntry schema collName path fm fspan.2

/-- All ordered pairs of distinct store paths deriving the same identifier,
each pair listed with the earlier path first. -/
def dupPairs : List String → List (String × String)
  | [] => []
  | p :: rest =>
      ((rest.filter (fun q => pathToId q == pathToId p)).map (fun q => (p, q)))
      ++ dupPairs rest

/-- Modelled from the spec: build one collection from the Document Store.
Every error found anywhere in the store is collected — identifier collisions
(reported with both conflicting paths) and per-document errors — and any
error prevents index construction; only an error-free store yields the
ordered list of validated entries. -/
def buildCollection (c : CollectionDefinition) (store : DocumentStore) :
    Except (List BuildError) (List Entry) :=
  let docs := store.filter (fun f => matchesPattern c f.1)
  let errors :=
    ((dupPairs (docs.map Prod.fst)).map (fun pq => BuildError.DuplicateIdentifier pq.1 pq.2))
    ++ docs.flatMap (fun f =>
      match processDocument c.schema c.name f.1 f.2 with
      | Except.error es => es
      | Except.ok _ => [])
  if errors.isEmpty then
    Except.ok (docs.filterMap (fun f => (processDocument c.schema c.name f.1 f.2).toOption))
  else
    Except.error errors

/-- Modelled from the spec: the Collection Index — a mapping from collection
name to the ordered list of validated entries, built once per run. -/
structure CollectionIndex where
  entries : List (String × List Entry)
  deriving DecidableEq, Repr

/-- Modelled from the spec: failure of the query surface. -/
inductive QueryError where
  | UnknownCollection (name : String)
  deriving DecidableEq, Repr

/-- Modelled from the spec: `getCollection` — the ordered entries of a named
collection; fails with `UnknownCollection` when the name was never declared
in the Schema Registry. -/
def getCollection (idx : CollectionIndex) (name : String) :
    Except QueryError (List Entry) :=
  match idx.entries.find? (fun c => c.1 == name) with
  | some c => Except.ok c.2
  | none => Except.error (QueryError.UnknownCollection name)

/-- Modelled from the spec: `getEntry` — a miss is not an error. -/
def getEntry (idx : CollectionIndex) (collection id : String) : Option Entry :=
  match getCollection idx collection with
  | Except.ok es => es.find? (fun e => e.id == id)
  | Except.error _ => none

end Blog

namespace Blog

/-! ### The declarations of src/content.config.ts -/

/-- The schema of the `blog` collection: `z.object({ title: z.string() })` —
exactly one declared field, the required string `title`. -/
def blogSchema : SchemaDescriptor :=
  { fields := [("title", { type := FieldType.string, required := true })] }

/-- The `blog` collection of `src/content.config.ts`: base `./content/blog/`,
glob pattern over the `md`/`mdx` extensions, schema `blogSchema`. -/
def blog : CollectionDefinition :=
  { name := "blog"
    basePath := "./content/blog/"
    extensions := [".md", ".mdx"]
    schema := blogSchema }

/-- The exported Schema Registry: `blog` is the only declared collection. -/
def collections : List CollectionDefinition := [blog]

/-- Modelled from the spec: the whole build pipeline over the registry —
each declared collection is built from the Document Store rooted at its base
path; this program declares exactly the collection `blog`. -/
def buildIndex (store : DocumentStore) : Except (List BuildError) CollectionIndex :=
  match buildCollection blog store with
  | Except.ok es => Except.ok { entries := [(blog.name, es)] }
  | Except.error errs => Except.error errs

end Blog

namespace Blog

/-! ### The document store: content/blog/self-join-elimination.md -/

/-- Front-matter line of `content/blog/self-join-elimination.md`. -/
def selfJoinFrontMatterLines : List String :=
  ["title: Self Join Elimination"]

/-- Body of `content/blog/self-join-elimination.md`: every line after the terminating front-matter marker. -/
def selfJoinBodyLines : List String :=
  ["",
   "In business analytics, queries that calculate running totals, rankings, or lag/lead values are essential for uncovering trends and insights within data. One common way to write these queries is by using a self-join, where a table is joined with itself to compare or aggregate rows based on certain conditions. While self-joins can achieve the desired results, they often introduce significant inefficiencies. By recognizing these patterns, we can optimize such queries by rewriting self-joins as window function operations, leading to better performance and reduced computational overhead.",
   "",
   "## Running Total using Self Join",
   "",
   "Let’s assume there is a `purchases` table with columns related the purchase amount, date and also user who made the purchase.",
   "",
   "```sql",
   "SELECT a.user_id, a.purchase_date, SUM(b.amount) AS running_total",
   "FROM purchases a",
   "JOIN purchases b ON a.user_id = b.user_id AND b.purchase_date <= a.purchase_date",
   "GROUP BY a.user_id, a.purchase_date;",
   "```",
   "",
   "Since `purchases.user_id` is not a unique value, for any given purchase by a user all of the purchases before it will be returned. For example given following query",
   "",
   "```sql",
   "SELECT *",
   "FROM purchases a",
   "JOIN purchases b ON a.user_id = b.user_id AND b.purchase_date <= a.purchase_date;",
   "```",
   "",
   "it will return",
   "",
   "```text",
   "| a.id | a.user_id | a.purchase_date | a.amount | b.id | b.user_id | b.purchase_date | b.amount |",
   "| ---- | --------- | --------------- | -------- | ---- | --------- | --------------- | -------- |",
   "| 3    | 1         | 2024-05-10      | 40.00    | 1    | 1         | 2024-05-01      | 50.00    |",
   "| 3    | 1         | 2024-05-10      | 40.00    | 2    | 1         | 2024-05-03      | 25.00    |",
   "| 3    | 1         | 2024-05-10      | 40.00    | 3    | 1         | 2024-05-10      | 40.00    |",
   "| 2    | 1         | 2024-05-03      | 25.00    | 1    | 1         | 2024-05-01      | 50.00    |",
   "| 2    | 1         | 2024-05-03      | 25.00    | 2    | 1         | 2024-05-03      | 25.00    |",
   "| 1    | 1         | 2024-05-01      | 50.00    | 1    | 1         | 2024-05-01      | 50.00    |",
   "```",
   "",
   "Then, we can group these based `a.user_id` and `a.purchase_date` and compute the total purchases made by that customer until that date via summing over `b.amount`",
   "",
   "One key observation here is number of rows processed by the query has `O(n^2)` complexity, simply we are iterating over all of the purchases to compute the total for each purchase. Goal of this optimization is to replace this and similar ones with a more efficient window functions.",
   "",
   "## Optimizable Patterns",
   "",
   "### Unique Keyed Self Join",
   "",
   "Before moving on to window functions there is a simpler case where a similar optimization can be applied. Self join on a column(s) that form a unique key for the table. Consider the following SQL query.",
   "",
   "```sql",
   "SELECT a.id",
   "FROM employees a",
   "JOIN employees b ON a.id = b.id",
   "WHERE b.department = \x27HR\x27;",
   "```",
   "",
   "This query performs a self-join on the `employees` table, filtering for employees in the `\x27HR\x27` department. Unoptimized logical plan for the query is simply as follows.",
   "",
   "```",
   "Projection: a.id",
   "  Filter: b.department = Utf8(\"HR\")",
   "    Inner Join:  Filter: a.id = b.id",
   "      SubqueryAlias: a",
   "        TableScan: employees",
   "      SubqueryAlias: b",
   "        TableScan: employees",
   "```",
   "",
   "Since the join is on a unique key (`id`) and we are performing a inner join (null values will be discarded) for any given row on left hand side (`FROM employees a`) there only exist one and only one row on the right hand side (`JOIN employees b`) that will be returned.",
   "",
   "In optimized case, we can eliminate the join, we can merge `TableScan`s together and perform filtering based on the `department`. Then, expected optimized output for the query should be as follows.",
   "",
   "```",
   "Projection: a.id",
   "\tFilter: a.department = Utf8(\"HR\")",
   "\t\tSubqueryAlias: a",
   "\t\t\tTableScan: employees",
   "```",
   "",
   "#### Self Join with a Subquery",
   "",
   "Similar optimizations can be done when right side of the join includes projections and/or filters.",
   "",
   "```sql",
   "SELECT a.id",
   "FROM employees a",
   "JOIN (SELECT id FROM employees WHERE department = \x27HR\x27) b ON a.id = b.id;",
   "```",
   "",
   "Unoptimized logical plan is",
   "",
   "```",
   "Projection: a.id",
   "  Inner Join:  Filter: a.id = b.id",
   "    SubqueryAlias: a",
   "      TableScan: employees",
   "    SubqueryAlias: b",
   "      Projection: employees.id",
   "        Filter: employees.department = Utf8(\"HR\")",
   "          TableScan: employees",
   "```",
   "",
   "by combing left and right side of the query we can have",
   "",
   "```",
   "Projection: a.id",
   "  SubqueryAlias: b",
   "    SubqueryAlias: a",
   "      Projection: employees.id",
   "        Filter: employees.department = Utf8(\"HR\")",
   "          TableScan: employees",
   "```",
   "",
   "Again, a following pass of the optimizer can eliminate redundant alises and projections.",
   "",
   "### Running Total",
   "",
   "As outlined in the introduction self-join queries can be used for computing running totals and other various aggreagation functions.",
   "",
   "```sql",
   "SELECT a.user_id, a.purchase_date, SUM(b.amount) AS running_total",
   "FROM purchases a",
   "JOIN purchases b ON a.user_id = b.user_id AND b.purchase_date <= a.purchase_date",
   "GROUP BY a.user_id, a.purchase_date;",
   "```",
   "",
   "Unoptimized logical plan the for the query is as follows.",
   "",
   "```",
   "Projection: a.user_id, a.purchase_date, sum(b.amount) AS running_total",
   "  Aggregate: groupBy=[[a.user_id, a.purchase_date]], aggr=[[sum(CAST(b.amount AS UInt64))]]",
   "    Projection: a.user_id, a.purchase_date, b.amount",
   "      Inner Join: a.user_id = b.user_id Filter: b.purchase_date <= a.purchase_date",
   "        SubqueryAlias: a",
   "          TableScan: purchases projection=[user_id, purchase_date]",
   "        SubqueryAlias: b",
   "          TableScan: purchases projection=[user_id, purchase_date, amount]",
   "```",
   "",
   "Let’s now bisect this query to derive the optimization rule.",
   "",
   "- For this optimization join condition should **NOT** be a unique key for the table as it would make aggragtion function return the singular row.",
   "- `GROUP BY ...` expressions become the partition key for the window expression.",
   "- Join filter `AND b.purchase_date <= a.purchase_date` compares the same columns and should be not null.",
   "  - `purchase_date` is column should be used for ordering, `ORDER BY purchase_date`",
   "  - `<` ordering should be ascdending, `ASC`",
   "  - `<=` means that window function should include the current row, `… AND CURRENT ROW`",
   "- Lastly, update aggregation function expression `SUM(b.amount)` as `SUM(amount)` since `b` alias is removed/eliminated.",
   "",
   "Putting it all together, expected optimized logical plan for the query can be written as follows.",
   "",
   "```",
   "Projection: a.user_id, a.purchase_date, running_total",
   "  WindowAggr: windowExpr=[SUM(amount) OVER (PARTITION BY user_id ORDER BY purchase_date ASC NULLS LAST ROWS BETWEEN UNBOUNDED PRECEDING AND CURRENT ROW)]",
   "    SubqueryAlias: a",
   "      TableScan: purchases projection=[user_id, purchase_date, amount]",
   "```",
   "",
   "With this rewrite allows using an window function that grows linearly with input table size instead of quadratically when self-join is used.",
   "",
   "### Non-Optimizable Pattern",
   "",
   "Window expression optimization relies on the fact that columns being compared are the same.",
   "",
   "```sql",
   "SELECT a.id, a.amount, b.amount",
   "FROM purchases a",
   "JOIN purchases b ON a.user_id = b.user_id AND b.purchase_date <= a.amount;",
   "```",
   "",
   "In this case, the query compares values across different rows (`b.purchase_date <= a.amount`), which cannot be represented using standard window functions. Therefore, this self-join should not be eliminated."]

/-- Content of `content/blog/self-join-elimination.md` as lines: the marker,
the front-matter block, the terminating marker, then the body. -/
def selfJoinEliminationLines : List String :=
  ["---"] ++ selfJoinFrontMatterLines ++ ["---"] ++ selfJoinBodyLines

/-- The Document Store of this repository's blog collection: exactly the one
file `self-join-elimination.md` (path relative to `./content/blog/`). -/
def selfJoinStore : DocumentStore :=
  [("self-join-elimination.md", selfJoinEliminationLines)]

end Blog

namespace Blog

/-! ### Observations of a built index, and further concrete stores -/

/-- Per-collection entry identifiers of a built index. -/
def indexIds (idx : CollectionIndex) : List (String × List String) :=
  idx.entries.map (fun c => (c.1, c.2.map Entry.id))

/-- Per-collection entry counts of a built index. -/
def indexCounts (idx : CollectionIndex) : List (String × Nat) :=
  idx.entries.map (fun c => (c.1, c.2.length))

/-- Per-collection entry data of a built index. -/
def indexData (idx : CollectionIndex) : List (String × List FrontMatter) :=
  idx.entries.map (fun c => (c.1, c.2.map Entry.data))

/-- A store holding two distinct valid documents whose paths derive the same
identifier `a/post`. -/
def dupStore : DocumentStore :=
  [("a/post.md", ["---", "title: A", "---"]),
   ("a/post/index.md", ["---", "title: B", "---"])]

/-- A store holding one document whose front-matter carries the undeclared
field `draft` alongside a valid `title`. -/
def extraFieldStore : DocumentStore :=
  [("post.md", ["---", "title: Hello", "draft: true", "---", "Body text."])]

end Blog

namespace Blog

/-! ### The base layout component (src/unnamed/part_001) -/

/-- One node of the head element emitted by the BaseLayout component. -/
inductive HeadNode where
  | titleTag (text : String)
  | meta (name content : String)
  | charset (value : String)
  | viewport (value : String)
  | stylesheet (href : String)
  | script (src id : String)
  deriving DecidableEq, Repr

/-- Props of the BaseLayout component: a required `title: string` and an
optional, nullable `description?: string | null` (`none` covers both an
absent prop and `null`). -/
structure BaseLayoutProps where
  title : String
  description : Option String
  deriving DecidableEq, Repr

/-- Conditional rendering `description && <meta name=... content=... />` of
the component: `null`/absent and the empty string are falsy and emit no
element; any other string emits the meta element with that content. -/
def descMeta (d : Option String) (name : String) : List HeadNode :=
  match d with
  | none => []
  | some s => if s == "" then [] else [HeadNode.meta name s]

/-- Head of the BaseLayout component, node for node in source order. -/
def renderHead (p : BaseLayoutProps) : List HeadNode :=
  [HeadNode.titleTag p.title]
  ++ descMeta p.description "description"
  ++ [HeadNode.meta "twitter:card" "summary",
      HeadNode.meta "twitter:title" p.title]
  ++ descMeta p.description "twitter:description"
  ++ [HeadNode.meta "twitter:creator" "@AtahanYorganci",
      HeadNode.meta "og:title" p.title]
  ++ descMeta p.description "og:description"
  ++ [HeadNode.meta "og:type" "website",
      HeadNode.meta "og:site_name" "NixCasks",
      HeadNode.meta "og:url" "https://nix-casks.yorganci.dev",
      HeadNode.charset "UTF-8",
      HeadNode.viewport "width=device-width",
      HeadNode.stylesheet "https://fonts.googleapis.com/css2?family=Space+Grotesk:wght@400;600;700&display=swap",
      HeadNode.script "https://assets.onedollarstats.com/stonks.js" "stonks"]

end Blog

namespace Blog

/-- C1: building the index over the store containing exactly
`content/blog/self-join-elimination.md` produces exactly one Entry, in the
collection `blog`, whose `id` is derived from the file's relative path
(extension stripped, separators normalized), whose `data` is the validated
front-matter `title`, and whose `body` is the file's content after the
front-matter block. -/
theorem C1_end_to_end :
    buildIndex selfJoinStore = Except.ok
      { entries := [("blog",
          [{ id := "self-join-elimination"
             collection := "blog"
             data := [("title", Value.str "Self Join Elimination")]
             body := selfJoinBodyLines }])] } := by
  rfl

end Blog

namespace Blog

/-- Helper: once any violation is found for a record, the Validator cannot
accept it, so no Entry is constructed from it. -/
lemma mkEntry_ne_ok (schema : SchemaDescriptor) (collName path : String)
    (fm : FrontMatter) (body : List String) (w : Violation)
    (hw : w ∈ validate schema fm) (e : Entry) :
    mkEntry schema collName path fm body ≠ Except.ok e := by
  intro h
  cases hv : validate schema fm with
  | nil => rw [hv] at hw; exact (List.not_mem_nil w) hw
  | cons x xs => simp [mkEntry, validateData, hv] at h

/-- C2: a front-matter field not declared in the schema is rejected with an
`UnknownField` violation for that field, and the document never yields an
Entry — undeclared fields are never silently dropped. -/
theorem C2_unknown_field_rejected (schema : SchemaDescriptor) (fm : FrontMatter)
    (name : String) (v : Value)
    (hmem : (name, v) ∈ fm) (hundecl : lookupSpec schema name = none) :
    Violation.UnknownField name ∈ validate schema fm ∧
      ∀ (collName path : String) (body : List String) (e : Entry),
        mkEntry schema collName path fm body ≠ Except.ok e := by
  have hviol : Violation.UnknownField name ∈ validate schema fm := by
    unfold validate
    refine List.mem_append.2 (Or.inr ?_)
    refine List.mem_filterMap.2 ⟨(name, v), hmem, ?_⟩
    simp [hundecl]
  exact ⟨hviol, fun collName path body e =>
    mkEntry_ne_ok schema collName path fm body _ hviol e⟩

/-- Witness for C2 at a concrete record carrying the undeclared field
`draft` alongside a valid `title`. -/
theorem C2_witness :
    Violation.UnknownField "draft" ∈
        validate blogSchema [("title", Value.str "T"), ("draft", Value.bool true)] ∧
      ∀ (collName path : String) (body : List String) (e : Entry),
        mkEntry blogSchema collName path
          [("title", Value.str "T"), ("draft", Value.bool true)] body ≠ Except.ok e :=
  C2_unknown_field_rejected blogSchema _ "draft" (Value.bool true) (by decide) (by decide)

/-- C4: a record carrying a number where the `blog` schema declares the
string `title` receives the violation
`TypeMismatch("title", "string", "number")` and yields no Entry. -/
theorem C4_title_type_mismatch (fm : FrontMatter) (k : Int)
    (h : lookupField fm "title" = some (Value.num k)) :
    Violation.TypeMismatch "title" "string" "number" ∈ validate blogSchema fm ∧
      ∀ (collName path : String) (body : List String) (e : Entry),
        mkEntry blogSchema collName path fm body ≠ Except.ok e := by
  obtain ⟨kv, hfind, hsnd⟩ :
      ∃ kv, fm.find? (fun kv => kv.1 == "title") = some kv ∧ kv.2 = Value.num k := by
    unfold lookupField at h
    cases hf : fm.find? (fun kv => kv.1 == "title") with
    | none => rw [hf] at h; simp at h
    | some kv => rw [hf] at h; simp at h; exact ⟨kv, rfl, h⟩
  have hkv1 : kv.1 = "title" := by
    have := List.find?_some hfind
    simpa using this
  have hkvmem : kv ∈ fm := List.mem_of_find?_eq_some hfind
  have hkv : kv = ("title", Value.num k) := by
    obtain ⟨a, b⟩ := kv
    simp only at hkv1 hsnd
    rw [hkv1, hsnd]
  rw [hkv] at hkvmem
  have hviol : Violation.TypeMismatch "title" "string" "number" ∈ validate blogSchema fm := by
    unfold validate
    refine List.mem_append.2 (Or.inl (List.mem_append.2 (Or.inr ?_)))
    exact List.mem_filterMap.2 ⟨("title", Value.num k), hkvmem, rfl⟩
  exact ⟨hviol, fun collName path body e =>
    mkEntry_ne_ok blogSchema collName path fm body _ hviol e⟩

/-- Witness for C4 at the record `title: 123`. -/
theorem C4_witness :
    Violation.TypeMismatch "title" "string" "number" ∈
        validate blogSchema [("title", Value.num 123)] ∧
      ∀ (collName path : String) (body : List String) (e : Entry),
        mkEntry blogSchema collName path [("title", Value.num 123)] body ≠ Except.ok e :=
  C4_title_type_mismatch [("title", Value.num 123)] 123 (by decide)

/-- C7: validation is idempotent — a `data` map the Validator has accepted
validates again without violations against the same descriptor. -/
theorem C7_validation_idempotent (schema : SchemaDescriptor) (fm d : FrontMatter)
    (h : validateData schema fm = Except.ok d) :
    validate schema d = [] ∧ validateData schema d = Except.ok d := by
  unfold validateData at h
  cases hv : validate schema fm with
  | nil =>
      rw [hv] at h
      simp at h
      subst h
      exact ⟨hv, by simp [validateData, hv]⟩
  | cons x xs => rw [hv] at h; simp at h

/-- Witness for C7 at an accepted record for the `blog` schema. -/
theorem C7_witness :
    validate blogSchema [("title", Value.str "x")] = [] ∧
      validateData blogSchema [("title", Value.str "x")] =
        Except.ok [("title", Value.str "x")] :=
  C7_validation_idempotent blogSchema [("title", Value.str "x")] _ (by rfl)

/-- C8: querying a collection name that was never declared fails with
`UnknownCollection` (it never silently answers an empty list), and the only
declared collection of this program is `blog`. -/
theorem C8_unknown_collection (store : DocumentStore) (idx : CollectionIndex)
    (name : String) (hbuild : buildIndex store = Except.ok idx) (hname : name ≠ "blog") :
    getCollection idx name = Except.error (QueryError.UnknownCollection name) ∧
      idx.entries.map Prod.fst = ["blog"] := by
  unfold buildIndex at hbuild
  cases hb : buildCollection blog store with
  | ok es =>
      rw [hb] at hbuild
      simp at hbuild
      subst hbuild
      have hne : ("blog" == name) = false := by
        simp [Ne.symm hname]
      refine ⟨?_, by simp [blog]⟩
      simp [getCollection, List.find?, blog, hne]
  | error errs => rw [hb] at hbuild; simp at hbuild

/-- Witness for C8: the empty store builds an index answering `blog` only;
`nonexistent` fails. -/
theorem C8_witness :
    getCollection { entries := [("blog", [])] } "nonexistent" =
        Except.error (QueryError.UnknownCollection "nonexistent") ∧
      (CollectionIndex.mk [("blog", ([] : List Entry))]).entries.map Prod.fst = ["blog"] :=
  C8_unknown_collection [] _ "nonexistent" (by rfl) (by decide)

end Blog

namespace Blog

/-- Helper: the only field name declared in the `blog` schema is `title`. -/
lemma blog_declared_eq_title (n : String)
    (h : (lookupSpec blogSchema n).isSome = true) : n = "title" := by
  by_contra hne
  have hb : (("title" : String) == n) = false := by simp [Ne.symm hne]
  simp [lookupSpec, blogSchema, List.find?, hb] at h

/-- C3: a record that omits the schema-required `title` and is otherwise
conforming (every present field declared with a matching type) receives
exactly one violation, `MissingField("title")`, and yields no Entry. -/
theorem C3_missing_title (fm : FrontMatter)
    (habs : lookupField fm "title" = none)
    (hconf : ∀ nv ∈ fm, (lookupSpec blogSchema nv.1).isSome = true ∧
      typeMatches FieldType.string nv.2 = true) :
    validate blogSchema fm = [Violation.MissingField "title"] ∧
      ∀ (collName path : String) (body : List String) (e : Entry),
        mkEntry blogSchema collName path fm body ≠ Except.ok e := by
  have hfm : fm = [] := by
    cases hfm : fm with
    | nil => rfl
    | cons nv rest =>
        exfalso
        have h1 := hconf nv (hfm ▸ List.mem_cons_self nv rest)
        have htitle : nv.1 = "title" := blog_declared_eq_title nv.1 h1.1
        rw [hfm] at habs
        simp [lookupField, List.find?, htitle] at habs
  subst hfm
  refine ⟨by rfl, ?_⟩
  intro collName path body e h
  have hval : validate blogSchema ([] : FrontMatter) = [Violation.MissingField "title"] := rfl
  simp [mkEntry, validateData, hval] at h

/-- Witness for C3 at the empty record. -/
theorem C3_witness :
    validate blogSchema [] = [Violation.MissingField "title"] ∧
      ∀ (collName path : String) (body : List String) (e : Entry),
        mkEntry blogSchema collName path [] body ≠ Except.ok e :=
  C3_missing_title [] (by rfl) (by simp)

/-- C6: the pipeline is deterministic — two runs over the same unchanged
store produce indexes with identical per-collection entry ids, identical
per-collection entry counts and identical data values. -/
theorem C6_deterministic_rebuild (s1 s2 : DocumentStore) (h : s1 = s2) :
    (buildIndex s1).map indexIds = (buildIndex s2).map indexIds ∧
      (buildIndex s1).map indexCounts = (buildIndex s2).map indexCounts ∧
      (buildIndex s1).map indexData = (buildIndex s2).map indexData := by
  subst h
  exact ⟨rfl, rfl, rfl⟩

/-- Witness for C6 at the repository's own store. -/
theorem C6_witness :
    (buildIndex selfJoinStore).map indexIds = (buildIndex selfJoinStore).map indexIds ∧
      (buildIndex selfJoinStore).map indexCounts =
        (buildIndex selfJoinStore).map indexCounts ∧
      (buildIndex selfJoinStore).map indexData = (buildIndex selfJoinStore).map indexData :=
  C6_deterministic_rebuild selfJoinStore selfJoinStore rfl

/-- Helper: two distinct store paths deriving the same identifier appear, in
one order or the other, among the duplicate pairs. -/
lemma mem_dupPairs (l : List String) (p q : String) (hp : p ∈ l) (hq : q ∈ l)
    (hne : p ≠ q) (hid : pathToId p = pathToId q) :
    (p, q) ∈ dupPairs l ∨ (q, p) ∈ dupPairs l := by
  induction l with
  | nil => exact absurd hp (List.not_mem_nil p)
  | cons a rest ih =>
      simp only [dupPairs]
      rcases List.mem_cons.1 hp with hap | hp'
      · subst hap
        have hq' : q ∈ rest := by
          rcases List.mem_cons.1 hq with haq | hq'
          · exact absurd haq.symm hne
          · exact hq'
        left
        refine List.mem_append.2 (Or.inl ?_)
        refine List.mem_map.2 ⟨q, List.mem_filter.2 ⟨hq', ?_⟩, rfl⟩
        simp [hid]
      · rcases List.mem_cons.1 hq with haq | hq'
        · subst haq
          right
          refine List.mem_append.2 (Or.inl ?_)
          refine List.mem_map.2 ⟨p, List.mem_filter.2 ⟨hp', ?_⟩, rfl⟩
          simp [hid]
        · rcases ih hp' hq' with h | h
          · exact Or.inl (List.mem_append.2 (Or.inr h))
          · exact Or.inr (List.mem_append.2 (Or.inr h))

/-- C5: two distinct matched paths in one collection deriving the same
identifier make index construction fail with a `DuplicateIdentifier` error
naming both conflicting paths — never a silent overwrite. -/
theorem C5_duplicate_identifier (store : DocumentStore) (p1 p2 : String)
    (c1 c2 : List String) (h1 : (p1, c1) ∈ store) (h2 : (p2, c2) ∈ store)
    (hm1 : matchesPattern blog p1 = true) (hm2 : matchesPattern blog p2 = true)
    (hne : p1 ≠ p2) (hid : pathToId p1 = pathToId p2) :
    ∃ errs, buildCollection blog store = Except.error errs ∧
      (BuildError.DuplicateIdentifier p1 p2 ∈ errs ∨
        BuildError.DuplicateIdentifier p2 p1 ∈ errs) := by
  set docs := store.filter (fun f => matchesPattern blog f.1) with hdocs
  set errors :=
    ((dupPairs (docs.map Prod.fst)).map
      (fun pq => BuildError.DuplicateIdentifier pq.1 pq.2))
    ++ docs.flatMap (fun f =>
      match processDocument blog.schema blog.name f.1 f.2 with
      | Except.error es => es
      | Except.ok _ => []) with herr
  have hp1 : p1 ∈ docs.map Prod.fst :=
    List.mem_map.2 ⟨(p1, c1), List.mem_filter.2 ⟨h1, hm1⟩, rfl⟩
  have hp2 : p2 ∈ docs.map Prod.fst :=
    List.mem_map.2 ⟨(p2, c2), List.mem_filter.2 ⟨h2, hm2⟩, rfl⟩
  have hmem : BuildError.DuplicateIdentifier p1 p2 ∈ errors ∨
      BuildError.DuplicateIdentifier p2 p1 ∈ errors := by
    rcases mem_dupPairs (docs.map Prod.fst) p1 p2 hp1 hp2 hne hid with h | h
    · exact Or.inl (List.mem_append.2 (Or.inl (List.mem_map.2 ⟨(p1, p2), h, rfl⟩)))
    · exact Or.inr (List.mem_append.2 (Or.inl (List.mem_map.2 ⟨(p2, p1), h, rfl⟩)))
  have hnonempty : errors.isEmpty = false := by
    cases herrs : errors with
    | nil =>
        rw [herrs] at hmem
        rcases hmem with h | h <;> exact absurd h (List.not_mem_nil _)
    | cons x xs => rfl
  have hbc : buildCollection blog store =
      if errors.isEmpty then
        Except.ok (docs.filterMap
          (fun f => (processDocument blog.schema blog.name f.1 f.2).toOption))
      else Except.error errors := rfl
  rw [hnonempty] at hbc
  simp only [Bool.false_eq_true, if_false] at hbc
  exact ⟨errors, hbc, hmem⟩

/-- Witness for C5 at the store holding `a/post.md` and `a/post/index.md`. -/
theorem C5_witness :
    ∃ errs, buildCollection blog dupStore = Except.error errs ∧
      (BuildError.DuplicateIdentifier "a/post.md" "a/post/index.md" ∈ errs ∨
        BuildError.DuplicateIdentifier "a/post/index.md" "a/post.md" ∈ errs) :=
  C5_duplicate_identifier dupStore "a/post.md" "a/post/index.md"
    ["---", "title: A", "---"] ["---", "title: B", "---"]
    (by decide) (by decide) (by decide) (by decide) (by decide) (by decide)

end Blog

namespace Blog

/-- Helper: a successfully parsed front-matter block has pairwise distinct
field names. -/
lemma parseFrontMatter_nodup (lines : List String) (fm : FrontMatter)
    (h : parseFrontMatter lines = some fm) : (fm.map Prod.fst).Nodup := by
  unfold parseFrontMatter at h
  cases hm : (lines.filter (fun l => !(l == ""))).mapM parseFMLine with
  | none => rw [hm] at h; simp at h
  | some fm' =>
      rw [hm] at h
      dsimp only at h
      by_cases hnd : (fm'.map Prod.fst).Nodup
      · rw [if_pos hnd] at h
        injection h with h
        subst h
        exact hnd
      · rw [if_neg hnd] at h; simp at h

/-- Helper: a value matching the declared string type is a string value. -/
lemma typeMatches_string (v : Value) (h : typeMatches FieldType.string v = true) :
    ∃ s, v = Value.str s := by
  cases v with
  | str s => exact ⟨s, rfl⟩
  | num n => simp [typeMatches] at h
  | bool b => simp [typeMatches] at h
  | date y m d => simp [typeMatches] at h

/-- Helper: a record with pairwise distinct field names that the Validator
accepts against the `blog` schema is exactly one string `title` binding. -/
lemma validate_blog_nil (fm : FrontMatter)
    (hnodup : (fm.map Prod.fst).Nodup)
    (hval : validate blogSchema fm = []) :
    ∃ s, fm = [("title", Value.str s)] := by
  unfold validate at hval
  obtain ⟨hAB, hC⟩ := List.append_eq_nil.1 hval
  obtain ⟨hA, hB⟩ := List.append_eq_nil.1 hAB
  have hkeys : ∀ nv ∈ fm, nv.1 = "title" := by
    intro nv hmem
    have hnone := List.filterMap_eq_nil_iff.1 hC nv hmem
    cases hls : lookupSpec blogSchema nv.1 with
    | none => rw [hls] at hnone; simp at hnone
    | some y => exact blog_declared_eq_title nv.1 (by rw [hls]; rfl)
  obtain ⟨v, hv⟩ : ∃ v, lookupField fm "title" = some v := by
    cases hlf : lookupField fm "title" with
    | some v => exact ⟨v, rfl⟩
    | none => exfalso; simp [blogSchema, hlf] at hA
  cases fm with
  | nil => simp [lookupField] at hv
  | cons kv rest =>
      cases rest with
      | cons kv2 rest2 =>
          exfalso
          have h1 : kv.1 = "title" := hkeys kv (by simp)
          have h2 : kv2.1 = "title" := hkeys kv2 (by simp)
          simp [h1, h2, List.nodup_cons] at hnodup
      | nil =>
          have h1 : kv.1 = "title" := hkeys kv (by simp)
          have hmis := List.filterMap_eq_nil_iff.1 hB kv (by simp)
          by_cases ht : typeMatches FieldType.string kv.2 = true
          · obtain ⟨s, hs⟩ := typeMatches_string kv.2 ht
            refine ⟨s, ?_⟩
            obtain ⟨a, b⟩ := kv
            simp only at h1 hs
            rw [h1, hs]
          · exfalso
            simp [h1, lookupSpec, blogSchema, List.find?, ht] at hmis

/-- C9 (amended): every Entry constructed in the `blog` collection carries a
`data` map holding exactly one key, `title`, bound to a string value; a
source document whose front-matter carries additional undeclared fields
alongside a valid `title` yields no Entry at all (it is rejected with
`UnknownField`) rather than an Entry with the undeclared fields dropped. -/
theorem C9_blog_entries_title_only (store : DocumentStore) (idx : CollectionIndex)
    (hbuild : buildIndex store = Except.ok idx)
    (es : List Entry) (hes : getCollection idx "blog" = Except.ok es)
    (e : Entry) (he : e ∈ es) :
    ∃ s, e.data = [("title", Value.str s)] := by
  unfold buildIndex at hbuild
  cases hb : buildCollection blog store with
  | error errs => rw [hb] at hbuild; simp at hbuild
  | ok es0 =>
      rw [hb] at hbuild
      simp at hbuild
      subst hbuild
      have hes0 : es = es0 := by
        simp [getCollection, List.find?, blog] at hes
        exact hes.symm
      subst hes0
      set docs := store.filter (fun f => matchesPattern blog f.1) with hdocs
      set errors :=
        ((dupPairs (docs.map Prod.fst)).map
          (fun pq => BuildError.DuplicateIdentifier pq.1 pq.2))
        ++ docs.flatMap (fun f =>
          match processDocument blog.schema blog.name f.1 f.2 with
          | Except.error es1 => es1
          | Except.ok _ => []) with herr
      have hbc : buildCollection blog store =
          if errors.isEmpty then
            Except.ok (docs.filterMap
              (fun f => (processDocument blog.schema blog.name f.1 f.2).toOption))
          else Except.error errors := rfl
      rw [hb] at hbc
      by_cases hempty : errors.isEmpty = true
      · rw [if_pos hempty] at hbc
        injection hbc with hbc
        obtain ⟨f, hfmem, hfok⟩ := List.mem_filterMap.1 (hbc ▸ he)
        cases hpd : processDocument blog.schema blog.name f.1 f.2 with
        | error es1 => rw [hpd] at hfok; simp [Except.toOption] at hfok
        | ok e1 =>
            rw [hpd] at hfok
            simp [Except.toOption] at hfok
            subst hfok
            unfold processDocument at hpd
            cases hsp : splitFrontMatter f.2 with
            | none => rw [hsp] at hpd; simp at hpd
            | some fspan =>
                rw [hsp] at hpd
                dsimp only at hpd
                cases hpf : parseFrontMatter fspan.1 with
                | none => rw [hpf] at hpd; simp at hpd
                | some fm =>
                    rw [hpf] at hpd
                    dsimp only at hpd
                    have hnodup := parseFrontMatter_nodup fspan.1 fm hpf
                    unfold mkEntry validateData at hpd
                    cases hv : validate blog.schema fm with
                    | cons x xs => rw [hv] at hpd; simp at hpd
                    | nil =>
                        rw [hv] at hpd
                        simp at hpd
                        obtain ⟨s, hs⟩ := validate_blog_nil fm hnodup hv
                        refine ⟨s, ?_⟩
                        rw [← hpd]
                        exact hs
      · rw [if_neg hempty] at hbc; simp at hbc

/-- C9 counterexample: the document `post.md` carries the undeclared field
`draft: true` alongside a valid `title`, yet the build produces no Entry for
it — the whole collection build fails with `UnknownField("draft")`, so no
Entry with the undeclared field silently dropped exists. -/
theorem C9_counterexample :
    buildCollection blog extraFieldStore =
      Except.error [BuildError.SchemaViolation "post.md" (Violation.UnknownField "draft")] := by
  rfl

/-- Witness for C9 at the repository's own store and its single entry. -/
theorem C9_witness :
    ∃ s, (Entry.mk "self-join-elimination" "blog"
        [("title", Value.str "Self Join Elimination")] selfJoinBodyLines).data =
      [("title", Value.str s)] :=
  C9_blog_entries_title_only selfJoinStore
    { entries := [("blog",
        [Entry.mk "self-join-elimination" "blog"
          [("title", Value.str "Self Join Elimination")] selfJoinBodyLines])] }
    (by rfl)
    [Entry.mk "self-join-elimination" "blog"
      [("title", Value.str "Self Join Elimination")] selfJoinBodyLines]
    (by rfl)
    (Entry.mk "self-join-elimination" "blog"
      [("title", Value.str "Self Join Elimination")] selfJoinBodyLines)
    (by simp)

/-- C10: the base layout head omits all three description meta elements when
the `description` prop is absent, `null` or empty, emits all three with the
prop's content when it is a non-empty string, and emits the title elements
unconditionally. -/
theorem C10_base_layout_head (p : BaseLayoutProps) :
    ((p.description = none ∨ p.description = some "") →
      ∀ c, HeadNode.meta "description" c ∉ renderHead p ∧
        HeadNode.meta "twitter:description" c ∉ renderHead p ∧
        HeadNode.meta "og:description" c ∉ renderHead p) ∧
    (∀ d, p.description = some d → d ≠ "" →
      HeadNode.meta "description" d ∈ renderHead p ∧
        HeadNode.meta "twitter:description" d ∈ renderHead p ∧
        HeadNode.meta "og:description" d ∈ renderHead p) ∧
    (HeadNode.titleTag p.title ∈ renderHead p ∧
      HeadNode.meta "twitter:title" p.title ∈ renderHead p ∧
      HeadNode.meta "og:title" p.title ∈ renderHead p) := by
  obtain ⟨t, d⟩ := p
  refine ⟨?_, ?_, ?_⟩
  · rintro (h | h) c <;> rw [show (BaseLayoutProps.mk t d).description = d from rfl] at h <;>
      subst h <;> simp [renderHead, descMeta]
  · intro d0 hd hne
    rw [show (BaseLayoutProps.mk t d).description = d from rfl] at hd
    subst hd
    have hb : (d0 == "") = false := by simp [hne]
    simp [renderHead, descMeta, hb]
  · cases d with
    | none => simp [renderHead, descMeta]
    | some s =>
        by_cases hs : (s == "") = true
        · simp [renderHead, descMeta, hs]
        · simp only [Bool.not_eq_true] at hs
          simp [renderHead, descMeta, hs]

/-- Witness for C10: a non-empty description is emitted; a `null` one is
omitted. -/
theorem C10_witness :
    HeadNode.meta "description" "An overview" ∈
        renderHead (BaseLayoutProps.mk "Blog" (some "An overview")) ∧
      HeadNode.meta "og:description" "x" ∉
        renderHead (BaseLayoutProps.mk "Blog" none) :=
  ⟨((C10_base_layout_head (BaseLayoutProps.mk "Blog" (some "An overview"))).2.1
      "An overview" rfl (by decide)).1,
    fun h =>
      (((C10_base_layout_head (BaseLayoutProps.mk "Blog" none)).1 (Or.inl rfl) "x").2.2) h⟩

end Blog
